import Mathlib

/-!
Verification of the ChatCpp test-execution and reporting pipeline
(`scripts/run_tests_xray.py` and `scripts/generate_xray_report.py`).

The two Python scripts are shallow-embedded below.  Pure helper functions
become Lean functions; fallible Python code (exceptions caught by the
surrounding `try`/`except` blocks) is modelled with `Except`/`Option`;
the process environment and the outcomes of the external child processes
(the test executable, valgrind) appear as an explicit `Env` record.
Machine reals (Python floats) are modelled as rationals: no claim depends
on rounding, only on parse success/failure and on equalities of parsed
values.
-/

/-- Exceptions thrown inside the parsers and caught by their surrounding
`try`/`except Exception` blocks.  `valueErr` models `ValueError` from
`int(...)`/`float(...)`; `typeErr` models `TypeError` from adding a list
to an integer. -/
inductive PyErr where
  | valueErr
  | typeErr
deriving DecidableEq, Repr

/-- Value of a list of decimal digit characters. -/
def digitsToNat (l : List Char) : Nat :=
  l.foldl (fun a c => a * 10 + (c.toNat - 48)) 0

/-- Leading/trailing-whitespace strip, as CPython `int`/`float` apply to
their string argument before parsing. -/
def pyStrip (l : List Char) : List Char :=
  ((l.dropWhile Char.isWhitespace).reverse.dropWhile Char.isWhitespace).reverse

/-- Sign-free part of CPython `int(str)`: a nonempty run of decimal
digits.  (Digit-group underscores are not modelled; no input in this
development uses them.) -/
def parsePyIntBody (l : List Char) : Except PyErr Int :=
  if l ≠ [] ∧ l.all Char.isDigit then .ok (digitsToNat l : Int) else .error .valueErr

/-- CPython `int(s)` on a string: strip whitespace, optional sign,
nonempty digit run; raises `ValueError` otherwise. -/
def parsePyInt (s : String) : Except PyErr Int :=
  match pyStrip s.data with
  | '+' :: rest => parsePyIntBody rest
  | '-' :: rest => (parsePyIntBody rest).map Neg.neg
  | rest => parsePyIntBody rest

/-- Sign-free part of CPython `float(str)`: digits, optionally a point
followed by digits, at least one digit overall.  (Exponents, `inf` and
`nan` are not modelled; no input in this development uses them.) -/
def parsePyFloatBody (l : List Char) : Except PyErr ℚ :=
  let ip := l.takeWhile Char.isDigit
  let rest := l.dropWhile Char.isDigit
  match rest with
  | [] => if ip ≠ [] then .ok (digitsToNat ip : ℚ) else .error .valueErr
  | '.' :: fp =>
      if fp.all Char.isDigit ∧ (ip ≠ [] ∨ fp ≠ []) then
        .ok ((digitsToNat ip : ℚ) + (digitsToNat fp : ℚ) / (10 : ℚ) ^ fp.length)
      else .error .valueErr
  | _ => .error .valueErr

/-- CPython `float(s)` on a string: strip whitespace, optional sign, body. -/
def parsePyFloat (s : String) : Except PyErr ℚ :=
  match pyStrip s.data with
  | '+' :: rest => parsePyFloatBody rest
  | '-' :: rest => (parsePyFloatBody rest).map Neg.neg
  | rest => parsePyFloatBody rest

/-- `int(element.get(attr, 0))`: an absent attribute defaults to the
integer `0` (and `int(0)` is `0`); a present attribute is the raw string
and must parse. -/
def pyIntAttr (a : Option String) : Except PyErr Int :=
  match a with
  | none => .ok 0
  | some s => parsePyInt s

/-- `float(element.get(attr, 0))`: an absent attribute defaults to `0`;
a present attribute must parse as a float. -/
def pyFloatAttr (a : Option String) : Except PyErr ℚ :=
  match a with
  | none => .ok 0
  | some s => parsePyFloat s

/-- ASCII lower-casing of one character, modelling CPython `str.lower`
on the ASCII range (every string this code matches against is ASCII). -/
def asciiLower (c : Char) : Char :=
  if 65 ≤ c.toNat ∧ c.toNat ≤ 90 then Char.ofNat (c.toNat + 32) else c

/-- ASCII upper-casing of one character, modelling CPython `str.upper`
on the ASCII range. -/
def asciiUpper (c : Char) : Char :=
  if 97 ≤ c.toNat ∧ c.toNat ≤ 122 then Char.ofNat (c.toNat - 32) else c

/-- `s.lower()` over ASCII text. -/
def strLower (s : String) : String :=
  ⟨s.data.map asciiLower⟩

/-- `s.upper()` over ASCII text. -/
def strUpper (s : String) : String :=
  ⟨s.data.map asciiUpper⟩

/-- Does `n` occur at the start of `h`?  Helper for the Python `in`
substring test. -/
def isPrefOf : List Char → List Char → Bool
  | [], _ => true
  | _ :: _, [] => false
  | a :: n, b :: h => a == b && isPrefOf n h

/-- Python `n in h` on strings: `n` occurs as a contiguous substring of
`h` (at some position). -/
def occursIn (n : List Char) : List Char → Bool
  | [] => isPrefOf n []
  | b :: h => isPrefOf n (b :: h) || occursIn n h

/-! ## The decoded result-document tree

Both parsers receive a JUnit-style XML document already decoded by
`xml.etree.ElementTree` (`ET.parse(file).getroot()`).  The tree is
modelled structurally: the root's children are iterated as test suites,
a suite's children as test cases.  Attribute reads (`element.get`)
return the raw attribute string or `None`; `element.find(tag)` is
modelled by a presence flag plus the found element's text/attributes.
Total decode failure of the document (malformed XML) is outside this
tree model; both scripts turn it into the same `None`/`ParseError`
result through their `except` blocks. -/

/-- One `<testcase>` element as seen through `get`/`find`. -/
structure XCase where
  name : Option String
  classname : Option String
  time : Option String
  hasFailure : Bool
  failureMessage : Option String
  failureType : Option String
  failureText : Option String
  hasError : Bool
  errorMessage : Option String
  errorType : Option String
  errorText : Option String
  hasSkipped : Bool
  skippedText : Option String
deriving Repr, DecidableEq

/-- One `<testsuite>` element: its raw attributes and its case children. -/
structure XSuite where
  name : Option String
  tests : Option String
  failures : Option String
  errors : Option String
  skipped : Option String
  time : Option String
  timestamp : Option String
  cases : List XCase
deriving Repr, DecidableEq

/-- A case element with no attributes and no marker children. -/
def plainCase : XCase :=
  ⟨none, none, none, false, none, none, none, false, none, none, none, false, none⟩

/-- A suite element with no attributes and no cases. -/
def plainSuite : XSuite :=
  ⟨none, none, none, none, none, none, none, []⟩

/-! ## `scripts/generate_xray_report.py` (`XrayReportGenerator`)

The per-claim-relevant methods: `parse_junit_xml` (lines 31-120),
`map_status_to_xray` (lines 175-178), the status table from the loaded
configuration (`load_config`, lines 19-29, which yields the empty dict
when the configuration file is absent or malformed), and `main`'s
process-exit computation (line 291). -/

namespace XrayReportGenerator

/-- Failure/error detail of a parsed case: the marker element's
`message` and `type` attributes (defaulted to the empty string) and its
text (`.text or ""`). -/
structure GDetail where
  message : String
  type : String
  content : String
deriving Repr, DecidableEq

/-- One parsed test case of `parse_junit_xml` (lines 62-70 plus the
marker checks at lines 72-96). -/
structure GTest where
  name : String
  classname : String
  time : ℚ
  status : String
  failure : Option GDetail
  error : Option GDetail
  skipped : Option String
deriving Repr, DecidableEq

/-- One parsed suite record (dict literal at lines 50-59).  The Python
dict literal writes the key `"tests"` twice: first the integer
`int(testsuite.get("tests", 0))` (line 52), then the empty case list
(line 58).  The later entry wins, so the record's `tests` field is the
case list; the integer expression is still evaluated (and can raise
`ValueError`) but its value is discarded. -/
structure GSuiteR where
  name : String
  failures : Int
  errors : Int
  skipped : Int
  time : ℚ
  timestamp : String
  tests : List GTest
deriving Repr, DecidableEq

/-- The `results["summary"]` dict (lines 39-46, updated at 102-114). -/
structure GSummary where
  total : Int
  passed : Int
  failed : Int
  skipped : Int
  errors : Int
  time : ℚ
deriving Repr, DecidableEq

/-- The initial all-zero summary (lines 39-46). -/
def summaryZero : GSummary := ⟨0, 0, 0, 0, 0, 0⟩

/-- The `results` dict returned by `parse_junit_xml` on success. -/
structure GResults where
  testsuites : List GSuiteR
  summary : GSummary
deriving Repr, DecidableEq

/-- Lines 61-98: parse one `<testcase>` child.  The three marker checks
are sequential independent `if` statements, each overwriting `status`,
so when several markers are present the last check wins. -/
def parseGCase (c : XCase) : Except PyErr GTest :=
  match pyFloatAttr c.time with
  | .error e => .error e
  | .ok t =>
    let s1 := if c.hasFailure then "failed" else "passed"
    let s2 := if c.hasError then "error" else s1
    let s3 := if c.hasSkipped then "skipped" else s2
    .ok { name := c.name.getD ""
          classname := c.classname.getD ""
          time := t
          status := s3
          failure := if c.hasFailure then
              some ⟨c.failureMessage.getD "", c.failureType.getD "", c.failureText.getD ""⟩
            else none
          error := if c.hasError then
              some ⟨c.errorMessage.getD "", c.errorType.getD "", c.errorText.getD ""⟩
            else none
          skipped := if c.hasSkipped then some (c.skippedText.getD "") else none }

/-- The inner case loop of lines 61-98. -/
def parseGCases : List XCase → Except PyErr (List GTest)
  | [] => .ok []
  | c :: rest => do
      let g ← parseGCase c
      let gs ← parseGCases rest
      .ok (g :: gs)

/-- Lines 50-98: build one suite record.  The attribute conversions are
evaluated in the dict-literal order (tests, failures, errors, skipped,
time); any of them can raise `ValueError`.  The first `tests` value is
discarded per the duplicate dict key (see `GSuiteR`). -/
def parseGSuite (s : XSuite) : Except PyErr GSuiteR := do
  let _testsCount ← pyIntAttr s.tests
  let failures ← pyIntAttr s.failures
  let errors ← pyIntAttr s.errors
  let skipped ← pyIntAttr s.skipped
  let time ← pyFloatAttr s.time
  let tests ← parseGCases s.cases
  .ok ⟨s.name.getD "", failures, errors, skipped, time, s.timestamp.getD "", tests⟩

/-- The suite loop of lines 49-107.  After a suite record is built and
appended, line 103 executes `results["summary"]["total"] += suite["tests"]`;
because of the duplicate dict key, `suite["tests"]` is the list of case
records, so adding it to the integer total raises `TypeError` on every
iteration and the loop never completes past its first suite. -/
def parseGLoop (suites : List XSuite) (acc : List GSuiteR) (summ : GSummary) :
    Except PyErr (List GSuiteR × GSummary) :=
  match suites with
  | [] => .ok (acc.reverse, summ)
  | s :: _rest =>
      match parseGSuite s with
      | .error e => .error e
      | .ok _suite => .error .typeErr

/-- `parse_junit_xml` (lines 31-120): run the suite loop inside the
`try` block; any exception is caught at line 118 and turns the whole
parse into `None`.  On success, `summary["passed"]` is computed at
lines 109-114 as `total - failed - errors - skipped`. -/
def parse_junit_xml (root : List XSuite) : Option GResults :=
  match parseGLoop root [] summaryZero with
  | .error _ => none
  | .ok (suites, summ) =>
      some ⟨suites, { summ with passed := summ.total - summ.failed - summ.errors - summ.skipped }⟩

/-- `config.get("xray", {}).get("testStatuses", {})`: the status table
loaded from the configuration; the empty list models the empty dict
obtained when the configuration file is absent or malformed
(`load_config`, lines 19-29). -/
def pyDictGet (tbl : List (String × String)) (k : String) : Option String :=
  ((tbl.find? (fun p => p.1 == k)).map (fun p => p.2))

/-- `map_status_to_xray` (lines 175-178): table lookup with the
upper-cased status literal as fallback. -/
def map_status_to_xray (statusTable : List (String × String)) (status : String) : String :=
  (pyDictGet statusTable status).getD (strUpper status)

/-- Process-exit computation of `main` (line 291): zero iff both the
summary's failed and errors counts are zero.  (As committed the script
cannot actually reach this line: the `print` at lines 288-289 is a
syntax error, so any execution of the module aborts at load time; the
definition embeds the return expression as written.) -/
def mainReturn (s : GSummary) : Int :=
  if s.failed = 0 ∧ s.errors = 0 then 0 else 1

end XrayReportGenerator

/-! ## `scripts/run_tests_xray.py` (`XrayTestRunner`)

The per-claim-relevant methods: `run_tests` (lines 81-137),
`_check_memory_leaks` (lines 139-155), `_run_tests_with_valgrind`
(lines 157-306), `parse_test_results` (lines 308-351),
`generate_xray_report` (lines 353-397) and `run` (lines 410-448, with
the `sys.exit` wiring at lines 450-458). -/

namespace XrayTestRunner

/-- One entry of `results["tests"]` in `parse_test_results`
(lines 331-344).  Only the `<failure>` child is consulted; `<error>`
and `<skipped>` children are ignored.  `failure` holds `failure.text`,
which is `None` both when no failure element exists and when the
element has no text. -/
structure RTest where
  name : Option String
  classname : Option String
  time : ℚ
  status : String
  failure : Option String
deriving Repr, DecidableEq

/-- The `results` dict of `parse_test_results` (lines 317-323, `passed`
recomputed at line 346).  No errors count exists in this parser. -/
structure RResults where
  total : Int
  passed : Int
  failed : Int
  skipped : Int
  tests : List RTest
deriving Repr, DecidableEq

/-- Lines 330-344: parse one `<testcase>` child. -/
def parseRCase (c : XCase) : Except PyErr RTest :=
  match pyFloatAttr c.time with
  | .error e => .error e
  | .ok t =>
    .ok { name := c.name, classname := c.classname, time := t,
          status := if c.hasFailure then "failed" else "passed",
          failure := if c.hasFailure then c.failureText else none }

/-- The inner case loop of lines 330-344. -/
def parseRCases : List XCase → Except PyErr (List RTest)
  | [] => .ok []
  | c :: rest => do
      let g ← parseRCase c
      let gs ← parseRCases rest
      .ok (g :: gs)

/-- The suite loop of lines 325-344: accumulate the suites' `tests`,
`failures` and `skipped` attributes (the `errors` attribute is never
read) and the per-case records. -/
def parseRLoop : List XSuite → Int → Int → Int → List RTest →
    Except PyErr (Int × Int × Int × List RTest)
  | [], t, f, sk, acc => .ok (t, f, sk, acc)
  | s :: rest, t, f, sk, acc => do
      let tn ← pyIntAttr s.tests
      let fn ← pyIntAttr s.failures
      let sn ← pyIntAttr s.skipped
      let cs ← parseRCases s.cases
      parseRLoop rest (t + tn) (f + fn) (sk + sn) (acc ++ cs)

/-- `parse_test_results` (lines 308-351): run the loop inside the `try`
block (any exception caught at line 349 yields `None`); on success
`passed` is set at line 346 to `total - failed - skipped`. -/
def parse_test_results (root : List XSuite) : Option RResults :=
  match parseRLoop root 0 0 0 [] with
  | .error _ => none
  | .ok (t, f, sk, tests) => some ⟨t, t - f - sk, f, sk, tests⟩

/-- The fixed signature list of `_check_memory_leaks` (lines 141-150). -/
def leak_indicators : List String :=
  ["Direct leak", "Indirect leak", "Still reachable", "heap-use-after-free",
   "heap-buffer-overflow", "stack-buffer-overflow", "global-buffer-overflow",
   "LeakSanitizer"]

/-- `_check_memory_leaks` (lines 139-155): return true as soon as one
lower-cased indicator occurs in the lower-cased output. -/
def check_memory_leaks (output : String) : Bool :=
  leak_indicators.any (fun i => occursIn (strLower i).data (strLower output).data)

/-- Which fixed content a valgrind artifact file carries: the synthetic
documents written at lines 205-282 when valgrind is unavailable, or the
output of a real valgrind run.  The simulated XML is the fixed literal
at lines 205-262 (one `Leak_DefinitelyLost` finding); the simulated log
is the fixed text written at lines 268-282. -/
inductive VgContent where
  | simulated
  | real
deriving DecidableEq, Repr

/-- Files produced by the valgrind phase: `valgrind_results.xml` and
`valgrind_log.txt` in the build directory, and their timestamped copies
in the reports directory (lines 284-297). -/
structure Artifacts where
  vgXml : Option VgContent
  vgLog : Option VgContent
  reportsXml : Option VgContent
  reportsLog : Option VgContent
deriving DecidableEq, Repr

/-- No valgrind artifacts written. -/
def noArtifacts : Artifacts := ⟨none, none, none, none⟩

/-- Outcome of `run_tests`: the returned result-document path with its
decoded content (`.ok`), the `None` return (`.noFile`), or an uncaught
exception escaping the method (`.crash`). -/
inductive RunRes where
  | ok (doc : List XSuite)
  | noFile
  | crash
deriving Repr, DecidableEq

/-- Everything the pipeline reads from the outside world in one
invocation: the build result, the demo flag (`ENABLE_MEMORY_LEAK_DEMO`,
line 41), whether the test executable exists, the combined output and
exit code of the AddressSanitizer run, whether that run wrote the
results file and what it contains, whether valgrind is installed,
whether a real valgrind run writes its two log files, and whether the
valgrind-phase rerun leaves the results file present and with which
content. -/
structure Env where
  buildOk : Bool
  forceDemo : Bool
  execExists : Bool
  asanOut : String
  asanExit : Int
  asanResultsExists : Bool
  asanDoc : List XSuite
  valgrindAvailable : Bool
  realVgXml : Bool
  realVgLog : Bool
  vgResultsExists : Bool
  vgDoc : List XSuite

/-- Lines 114-120: the scan of the AddressSanitizer output, forced to
true when the demo flag was set during the build. -/
def leaksDetected (e : Env) : Bool :=
  check_memory_leaks e.asanOut || e.forceDemo

/-- `_run_tests_with_valgrind` (lines 157-306).  With valgrind present
the rerun happens under valgrind and the two log files come from the
real tool; otherwise the rerun happens bare and the fixed simulated XML
and log are written (lines 204-282).  The copy section (lines 284-306)
does `import shutil` inside the `if valgrind_xml.exists()` branch only
(line 290), so when that file is missing but the log or the results
file exists, the later `shutil.copy2` calls raise `NameError` and the
method crashes.  The method returns the copied results path only when
the results file exists (lines 299-304), irrespective of the rerun's
exit code. -/
def runTestsWithValgrind (e : Env) : Artifacts × RunRes :=
  let xml : Option VgContent :=
    if e.valgrindAvailable then (if e.realVgXml then some .real else none) else some .simulated
  let log : Option VgContent :=
    if e.valgrindAvailable then (if e.realVgLog then some .real else none) else some .simulated
  if xml.isSome then
    (⟨xml, log, xml, log⟩, if e.vgResultsExists then .ok e.vgDoc else .noFile)
  else if log.isSome || e.vgResultsExists then
    (⟨xml, log, none, none⟩, .crash)
  else
    (⟨xml, log, none, none⟩, .noFile)

/-- `run_tests` (lines 81-137): `None` when the executable is missing
(lines 88-90); escalate to the valgrind phase when leaks are detected
or forced (lines 122-124); otherwise return the copied results path
only when the AddressSanitizer run exited with code zero AND wrote the
results file (lines 128-134), returning `None` at line 137 otherwise.
The valgrind artifacts are paired with the outcome. -/
def run_tests (e : Env) : Artifacts × RunRes :=
  if !e.execExists then (noArtifacts, .noFile)
  else if leaksDetected e then runTestsWithValgrind e
  else if e.asanExit = 0 && e.asanResultsExists then (noArtifacts, .ok e.asanDoc)
  else (noArtifacts, .noFile)

/-- Line 357: the fixed opening of the report description. -/
def baseDescription : String := "Automated test execution via CI pipeline"

/-- Line 429: the memory-analysis label chosen in `run` depends only on
the leak flag, not on whether valgrind was real or simulated. -/
def memoryAnalysisLabel (leaks : Bool) : String :=
  if leaks then "AddressSanitizer + Valgrind" else "AddressSanitizer Clean"

/-- Lines 357-359: the report description with the memory-analysis note
appended (the label string is always non-empty, hence truthy). -/
def reportDescription (leaks : Bool) : String :=
  baseDescription ++ " | Memory Analysis: " ++ memoryAnalysisLabel leaks

/-- The fixed name-to-key table of lines 373-379. -/
def test_case_mapping : List (String × String) :=
  [("CreateMessage", "CHATCPP-TC-001"), ("ToString", "CHATCPP-TC-002"),
   ("FromString", "CHATCPP-TC-003"), ("InvalidString", "CHATCPP-TC-004"),
   ("TimestampUpdate", "CHATCPP-TC-005")]

/-- Python `str(x)` on a string-or-None value, as an f-string renders it. -/
def pyStrOfOpt : Option String → String
  | none => "None"
  | some s => s

/-- Line 382: `test_case_mapping.get(name, f"CHATCPP-TC-{name}")`. -/
def testKeyFor (name : Option String) : String :=
  match name with
  | some n => (XrayReportGenerator.pyDictGet test_case_mapping n).getD ("CHATCPP-TC-" ++ n)
  | none => "CHATCPP-TC-None"

/-- Line 389: the runner's inline status translation. -/
def runnerXrayStatus (status : String) : String :=
  if status = "passed" then "PASSED" else "FAILED"

/-- One entry of the runner's Xray report (lines 384-390).  The
wall-clock `start`/`finish` instants and the float-formatted comment
are time- and formatting-dependent and outside the model; no claim
concerns them. -/
structure XrayTest where
  testKey : String
  status : String
deriving Repr, DecidableEq

/-- The runner's Xray report (`generate_xray_report`, lines 353-397).
The timestamped `testExecutionKey` and `summary` fields are wall-clock
derived and outside the model. -/
structure XrayReport where
  description : String
  tests : List XrayTest
deriving Repr, DecidableEq

/-- `generate_xray_report` (lines 353-397) restricted to its
time-independent content. -/
def generate_xray_report (res : RResults) (leaks : Bool) : XrayReport :=
  { description := reportDescription leaks,
    tests := res.tests.map (fun t => ⟨testKeyFor t.name, runnerXrayStatus t.status⟩) }

/-- `run` (lines 410-448) together with the `sys.exit` wiring at lines
415-426 and 450-458: the process-exit code paired with the report that
was generated and saved (if any).  A crash of `run_tests` propagates as
an uncaught exception, which also ends the process with a non-zero
code. -/
def run (e : Env) : Int × Option XrayReport :=
  if !e.buildOk then (1, none)
  else
    match (run_tests e).2 with
    | .crash => (1, none)
    | .noFile => (1, none)
    | .ok doc =>
        match parse_test_results doc with
        | none => (1, none)
        | some res =>
            ((if res.failed = 0 then 0 else 1), some (generate_xray_report res (leaksDetected e)))

end XrayTestRunner

/-! ## Concrete inputs used by the claim theorems -/

/-- The claim's signature set, as the spec states it (lower-cased). -/
def leakSignatures : List String :=
  ["direct leak", "indirect leak", "still reachable", "heap-use-after-free",
   "heap-buffer-overflow", "stack-buffer-overflow", "global-buffer-overflow",
   "leaksanitizer"]

/-- The tuple of suite-level numeric attributes the generator's summary
is built from (tests, failures, errors, skipped, time). -/
def suiteAttrTuple (s : XSuite) :
    Option String × Option String × Option String × Option String × Option String :=
  (s.tests, s.failures, s.errors, s.skipped, s.time)

/-- C1 failing input: build fine, executable present, no leak
signatures in the sanitizer output, results file written, but the test
executable exits with code 1 (as googletest does when a test fails). -/
def c1env : XrayTestRunner.Env :=
  { buildOk := true, forceDemo := false, execExists := true, asanOut := "",
    asanExit := 1, asanResultsExists := true,
    asanDoc := [{ plainSuite with
                   tests := some "1",
                   cases := [{ plainCase with hasFailure := true }] }],
    valgrindAvailable := false, realVgXml := false, realVgLog := false,
    vgResultsExists := false, vgDoc := [] }

/-- C2 counterexample document: one suite declaring one errored case
(`errors="1"`) among two tests, with the matching `<error>` child. -/
def c2doc : List XSuite :=
  [{ plainSuite with
      tests := some "2", failures := some "0", errors := some "1",
      skipped := some "0",
      cases := [plainCase, { plainCase with hasError := true }] }]

/-- C2 witness document for the runner's parser. -/
def c2wdoc : List XSuite := [{ plainSuite with tests := some "2" }]

/-- C3 counterexample case element: both a failure and a skipped marker. -/
def c3case : XCase := { plainCase with hasFailure := true, hasSkipped := true }

/-- C3 counterexample document for the runner: a case with both an
error and a skipped marker. -/
def c3doc : List XSuite :=
  [{ plainSuite with cases := [{ plainCase with hasError := true, hasSkipped := true }] }]

/-- The case record the generator's per-case logic builds for `c3case`. -/
def c3g : XrayReportGenerator.GTest :=
  ⟨"", "", 0, "skipped", some ⟨"", "", ""⟩, none, some ""⟩

/-- A failure-marked case element, for the C3 witness. -/
def c3rcase : XCase := { plainCase with hasFailure := true }

/-- The record the runner's per-case logic builds for `c3rcase`. -/
def c3r : XrayTestRunner.RTest := ⟨none, none, 0, "failed", none⟩

/-- C4 failing input: a well-formed one-suite document whose `skipped`
and `time` attributes are simply absent (per the claim they should
default to zero and the parse should succeed). -/
def c4docAbsent : List XSuite :=
  [{ plainSuite with tests := some "1", failures := some "0", errors := some "0" }]

/-- C4 second input: a suite whose `tests` attribute is not a number. -/
def c4docMalformed : List XSuite :=
  [{ plainSuite with tests := some "abc" }]

/-- C5 counterexample environment: escalation triggered by a leak
signature, valgrind absent, and the bare rerun leaves no results file. -/
def c5envNoFile : XrayTestRunner.Env :=
  { buildOk := true, forceDemo := false, execExists := true,
    asanOut := "==123== Direct leak of 50 byte(s)", asanExit := 0,
    asanResultsExists := true, asanDoc := [], valgrindAvailable := false,
    realVgXml := false, realVgLog := false, vgResultsExists := false, vgDoc := [] }

/-- C5 witness environment: same escalated, valgrind-less run, but the
rerun does write the results file (an empty suite list parses fine). -/
def c5envOk : XrayTestRunner.Env :=
  { c5envNoFile with vgResultsExists := true, vgDoc := [] }

/-- A one-case document whose run ends with zero failures. -/
def c6doc : List XSuite :=
  [{ plainSuite with tests := some "1", cases := [plainCase] }]

/-- C6 environment: forced escalation (demo flag) with valgrind absent,
rerun results present. -/
def c6envSim : XrayTestRunner.Env :=
  { buildOk := true, forceDemo := true, execExists := true, asanOut := "",
    asanExit := 0, asanResultsExists := true, asanDoc := [],
    valgrindAvailable := false, realVgXml := false, realVgLog := false,
    vgResultsExists := true, vgDoc := c6doc }

/-- C6 environment: identical run but with real valgrind present. -/
def c6envReal : XrayTestRunner.Env :=
  { c6envSim with valgrindAvailable := true, realVgXml := true, realVgLog := true }

/-- C7 counterexample document: zero failures but one declared errored
case. -/
def c7doc : List XSuite :=
  [{ plainSuite with
      tests := some "2", failures := some "0", errors := some "1",
      skipped := some "0",
      cases := [plainCase, { plainCase with hasError := true }] }]

/-- C7 counterexample environment: a clean (non-escalated) run whose
result document is `c7doc`. -/
def c7env : XrayTestRunner.Env :=
  { buildOk := true, forceDemo := false, execExists := true, asanOut := "",
    asanExit := 0, asanResultsExists := true, asanDoc := c7doc,
    valgrindAvailable := false, realVgXml := false, realVgLog := false,
    vgResultsExists := false, vgDoc := [] }

/-- The runner's parse of `c7doc` (both cases come out "passed"). -/
def c7r : XrayTestRunner.RResults :=
  ⟨2, 2, 0, 0, [⟨none, none, 0, "passed", none⟩, ⟨none, none, 0, "passed", none⟩]⟩

/-- C10 documents: identical suite-level attributes, different per-case
marker children. -/
def c10d1 : List XSuite :=
  [{ plainSuite with tests := some "1", cases := [{ plainCase with hasFailure := true }] }]

/-- Companion document to `c10d1`, differing only in the case markers. -/
def c10d2 : List XSuite :=
  [{ plainSuite with tests := some "1", cases := [{ plainCase with hasSkipped := true }] }]
theorem isPrefOf_iff (n h : List Char) : isPrefOf n h = true ↔ ∃ t, h = n ++ t := by
  induction n generalizing h with
  | nil => simp [isPrefOf]
  | cons a n ih =>
    cases h with
    | nil => simp [isPrefOf]
    | cons b h =>
      simp only [isPrefOf, Bool.and_eq_true, beq_iff_eq, ih, List.cons_append]
      constructor
      · rintro ⟨rfl, t, rfl⟩; exact ⟨t, rfl⟩
      · rintro ⟨t, heq⟩
        injection heq with h1 h2
        exact ⟨h1.symm, t, h2⟩

theorem occursIn_iff (n h : List Char) :
    occursIn n h = true ↔ ∃ pre post, h = pre ++ n ++ post := by
  induction h with
  | nil =>
    simp only [occursIn, isPrefOf_iff]
    constructor
    · rintro ⟨t, ht⟩
      exact ⟨[], t, by simpa using ht⟩
    · rintro ⟨pre, post, hp⟩
      rcases List.append_eq_nil.mp hp.symm with ⟨h1, h2⟩
      rcases List.append_eq_nil.mp h1 with ⟨rfl, rfl⟩
      exact ⟨[], by simp [h2]⟩
  | cons b h ih =>
    simp only [occursIn, Bool.or_eq_true, isPrefOf_iff, ih]
    constructor
    · rintro (⟨t, ht⟩ | ⟨pre, post, hp⟩)
      · exact ⟨[], t, by simpa using ht⟩
      · exact ⟨b :: pre, post, by simp [hp]⟩
    · rintro ⟨pre, post, hp⟩
      cases pre with
      | nil => exact Or.inl ⟨post, by simpa using hp⟩
      | cons c pre =>
        injection hp with h1 h2
        exact Or.inr ⟨pre, post, h2⟩

/-- Any document whose root has at least one suite child makes
`parse_junit_xml` return `None`: either an attribute conversion inside
the suite raises `ValueError`, or the first summary update raises the
duplicate-dict-key `TypeError` (line 103). -/
theorem parse_junit_xml_cons (s : XSuite) (t : List XSuite) :
    XrayReportGenerator.parse_junit_xml (s :: t) = none := by
  unfold XrayReportGenerator.parse_junit_xml XrayReportGenerator.parseGLoop
  cases h : XrayReportGenerator.parseGSuite s <;> simp [h]

/-- C9: the leak scanner returns true iff at least one signature from
the fixed set occurs as a case-insensitive substring anywhere in the
text (and it is, by construction, a pure function of its input). -/
theorem c9_leak_scanner_iff (output : String) :
    XrayTestRunner.check_memory_leaks output = true ↔
      ∃ sig ∈ leakSignatures,
        ∃ pre post, (strLower output).data = pre ++ sig.data ++ post := by
  have hmap : XrayTestRunner.leak_indicators.map strLower = leakSignatures := by decide
  unfold XrayTestRunner.check_memory_leaks
  rw [List.any_eq_true]
  constructor
  · rintro ⟨i, hi, hocc⟩
    exact ⟨strLower i, by rw [← hmap]; exact List.mem_map_of_mem _ hi,
           (occursIn_iff _ _).mp hocc⟩
  · rintro ⟨sig, hsig, hdecomp⟩
    rw [← hmap] at hsig
    rcases List.mem_map.mp hsig with ⟨i, hi, rfl⟩
    exact ⟨i, hi, (occursIn_iff _ _).mpr hdecomp⟩

/-- C10: the summary returned by the report generator's parser depends
only on the suite elements' numeric attribute tuples (tests, failures,
errors, skipped, time), never on the per-case marker children: two
documents with identical suite attribute tuples yield identical
summaries even when their case children differ. -/
theorem c10_summary_depends_only_on_suite_attrs (d1 d2 : List XSuite)
    (h : d1.map suiteAttrTuple = d2.map suiteAttrTuple) :
    (XrayReportGenerator.parse_junit_xml d1).map (fun r => r.summary) =
      (XrayReportGenerator.parse_junit_xml d2).map (fun r => r.summary) := by
  cases d1 with
  | nil =>
    cases d2 with
    | nil => rfl
    | cons s t => simp [suiteAttrTuple] at h
  | cons s1 t1 =>
    cases d2 with
    | nil => simp [suiteAttrTuple] at h
    | cons s2 t2 => rw [parse_junit_xml_cons, parse_junit_xml_cons]

/-- C10 witness: two concrete one-suite documents with equal attribute
tuples but different case markers have equal summaries. -/
theorem c10_summary_witness :
    (XrayReportGenerator.parse_junit_xml c10d1).map (fun r => r.summary) =
      (XrayReportGenerator.parse_junit_xml c10d2).map (fun r => r.summary) :=
  c10_summary_depends_only_on_suite_attrs c10d1 c10d2 rfl

/-- C1: the claim fails on the code and the code contradicts its own
reporting logic.  On `c1env` — executable present, result document
produced, no leak suspicion, test exit code 1 — `run_tests` returns
`None` (line 128 demands `returncode == 0`), so the pipeline aborts
before parsing or reporting instead of continuing as the claim states;
the failed-test reporting of lines 442-447 is unreachable from this
path. -/
theorem c1_nonzero_exit_aborts_pipeline :
    XrayTestRunner.leaksDetected c1env = false ∧
    c1env.execExists = true ∧
    c1env.asanResultsExists = true ∧
    c1env.asanExit ≠ 0 ∧
    (XrayTestRunner.run_tests c1env).2 = XrayTestRunner.RunRes.noFile ∧
    XrayTestRunner.run c1env = (1, none) :=
  ⟨rfl, rfl, rfl, by decide, rfl, rfl⟩

/-- C2 counterexample: on `c2doc` (two tests, one declared errored) the
runner's parser yields `passed = 2` with `total = 2`, `failed = 0`,
`skipped = 0`, so with the document's errored count of 1 the claimed
identity `passed = total - failed - errored - skipped` fails: the
runner never subtracts an errored count (its result has none) and
counts the errored case as passed. -/
theorem c2_runner_counts_errored_as_passed :
    (XrayTestRunner.parse_test_results c2doc).map
        (fun r => (r.total, r.failed, r.skipped, r.passed)) =
      some (2, 0, 0, 2) ∧
    c2doc.map (fun s => s.errors) = [some "1"] ∧
    ¬((2 : Int) = 2 - 0 - 1 - 0) :=
  ⟨rfl, rfl, by decide⟩

/-- C2 (amended): the report generator's parser satisfies
`passed = total - failed - errors - skipped` by construction for every
successful parse; the runner's parser tracks no errored count and
satisfies `passed = total - failed - skipped` by construction. -/
theorem c2_passed_invariant_amended :
    (∀ root r, XrayReportGenerator.parse_junit_xml root = some r →
        r.summary.passed =
          r.summary.total - r.summary.failed - r.summary.errors - r.summary.skipped) ∧
    (∀ root r, XrayTestRunner.parse_test_results root = some r →
        r.passed = r.total - r.failed - r.skipped) := by
  constructor
  · intro root r h
    unfold XrayReportGenerator.parse_junit_xml at h
    cases hl : XrayReportGenerator.parseGLoop root [] XrayReportGenerator.summaryZero with
    | error e => rw [hl] at h; exact absurd h (by simp)
    | ok p =>
      rw [hl] at h
      obtain ⟨suites, summ⟩ := p
      simp only [Option.some.injEq] at h
      subst h
      rfl
  · intro root r h
    unfold XrayTestRunner.parse_test_results at h
    cases hl : XrayTestRunner.parseRLoop root 0 0 0 [] with
    | error e => rw [hl] at h; exact absurd h (by simp)
    | ok p =>
      rw [hl] at h
      obtain ⟨t, f, sk, tests⟩ := p
      simp only [Option.some.injEq] at h
      subst h
      rfl

/-- C2 witness: the amended invariants applied to concrete parses (the
empty document for the generator, `c2wdoc` for the runner). -/
theorem c2_passed_invariant_witness :
    ((⟨[], ⟨0, 0, 0, 0, 0, 0⟩⟩ : XrayReportGenerator.GResults).summary.passed =
        (⟨[], ⟨0, 0, 0, 0, 0, 0⟩⟩ : XrayReportGenerator.GResults).summary.total -
        (⟨[], ⟨0, 0, 0, 0, 0, 0⟩⟩ : XrayReportGenerator.GResults).summary.failed -
        (⟨[], ⟨0, 0, 0, 0, 0, 0⟩⟩ : XrayReportGenerator.GResults).summary.errors -
        (⟨[], ⟨0, 0, 0, 0, 0, 0⟩⟩ : XrayReportGenerator.GResults).summary.skipped) ∧
    ((⟨2, 2, 0, 0, []⟩ : XrayTestRunner.RResults).passed =
        (⟨2, 2, 0, 0, []⟩ : XrayTestRunner.RResults).total -
        (⟨2, 2, 0, 0, []⟩ : XrayTestRunner.RResults).failed -
        (⟨2, 2, 0, 0, []⟩ : XrayTestRunner.RResults).skipped) :=
  ⟨c2_passed_invariant_amended.1 [] _ (by decide),
   c2_passed_invariant_amended.2 c2wdoc _ (by decide)⟩

/-- C3 counterexample: a case element carrying both a failure and a
skipped marker comes out of the generator's per-case logic with status
"skipped" (the claim says the failure marker wins), and a case with
both an error and a skipped marker comes out of the runner's parser as
"passed" (the claim says errored). -/
theorem c3_marker_precedence_counterexample :
    (XrayReportGenerator.parseGCase c3case).toOption.map (fun g => g.status) =
      some "skipped" ∧
    ("skipped" : String) ≠ "failed" ∧
    (XrayTestRunner.parse_test_results c3doc).map
        (fun r => r.tests.map (fun t => t.status)) = some ["passed"] ∧
    ("passed" : String) ≠ "errored" :=
  ⟨rfl, by decide, rfl, by decide⟩

/-- C3 (amended): marker precedence is decided by the LAST matching
marker in the generator's per-case logic — effective precedence
skipped > error > failure > passed — while the runner's parser consults
only the failure marker (failed iff a failure child is present; error
and skipped children are ignored). -/
theorem c3_marker_precedence_amended :
    (∀ c g, XrayReportGenerator.parseGCase c = .ok g →
        g.status = (if c.hasSkipped then "skipped"
                    else if c.hasError then "error"
                    else if c.hasFailure then "failed" else "passed")) ∧
    (∀ c g, XrayTestRunner.parseRCase c = .ok g →
        g.status = (if c.hasFailure then "failed" else "passed")) := by
  constructor
  · intro c g h
    unfold XrayReportGenerator.parseGCase at h
    cases ht : pyFloatAttr c.time with
    | error e => rw [ht] at h; exact absurd h (by simp)
    | ok t =>
      rw [ht] at h
      simp only [Except.ok.injEq] at h
      subst h
      rfl
  · intro c g h
    unfold XrayTestRunner.parseRCase at h
    cases ht : pyFloatAttr c.time with
    | error e => rw [ht] at h; exact absurd h (by simp)
    | ok t =>
      rw [ht] at h
      simp only [Except.ok.injEq] at h
      subst h
      rfl

/-- C3 witness: the amended precedence applied to `c3case` (failure +
skipped markers) and `c3rcase` (failure marker) at their concrete parse
results. -/
theorem c3_marker_precedence_witness :
    (c3g.status = (if c3case.hasSkipped then "skipped"
                   else if c3case.hasError then "error"
                   else if c3case.hasFailure then "failed" else "passed")) ∧
    (c3r.status = (if c3rcase.hasFailure then "failed" else "passed")) :=
  ⟨c3_marker_precedence_amended.1 c3case c3g rfl,
   c3_marker_precedence_amended.2 c3rcase c3r rfl⟩

/-- C4: the claim is right about the intent and the code is wrong.  On
the well-formed `c4docAbsent` — one suite whose `skipped`/`time`
attributes are merely absent — the parse is supposed to return a
TestRun with those fields defaulted to zero (and `pyIntAttr none`
indeed defaults to zero), but instead returns `None`: the suite dict's
duplicate `"tests"` key makes line 103 add the case list to the integer
total, raising `TypeError`, which the blanket handler at line 118 turns
into a total parse failure.  A malformed numeric attribute
(`c4docMalformed`) likewise aborts the whole parse (`ValueError`)
rather than defaulting to zero. -/
theorem c4_wellformed_suite_parse_aborts :
    XrayReportGenerator.parse_junit_xml c4docAbsent = none ∧
    XrayReportGenerator.parse_junit_xml c4docMalformed = none ∧
    pyIntAttr none = .ok 0 ∧
    pyFloatAttr none = .ok 0 :=
  ⟨rfl, rfl, rfl, rfl⟩

/-- When the build succeeded, `run_tests` returned a result document
and it parses, `run` reaches reporting: it generates and saves the Xray
report and exits with zero iff the failed count is zero. -/
theorem run_eq_of_ok (e : XrayTestRunner.Env) (doc : List XSuite)
    (r : XrayTestRunner.RResults) (hb : e.buildOk = true)
    (hdoc : (XrayTestRunner.run_tests e).2 = XrayTestRunner.RunRes.ok doc)
    (hr : XrayTestRunner.parse_test_results doc = some r) :
    XrayTestRunner.run e =
      ((if r.failed = 0 then 0 else 1),
       some (XrayTestRunner.generate_xray_report r (XrayTestRunner.leaksDetected e))) := by
  simp [XrayTestRunner.run, hb, hdoc, hr]

/-- Every report `run` produces carries the description determined by
the leak flag alone. -/
theorem run_report_description (e : XrayTestRunner.Env)
    (rep : XrayTestRunner.XrayReport) (h : (XrayTestRunner.run e).2 = some rep) :
    rep.description = XrayTestRunner.reportDescription (XrayTestRunner.leaksDetected e) := by
  unfold XrayTestRunner.run at h
  split at h
  · simp at h
  · split at h
    · simp at h
    · simp at h
    · split at h
      · simp at h
      · simp only [Option.some.injEq] at h
        rw [← h]
        rfl

/-- Under escalation without the executable-missing case, `run_tests`
is exactly the valgrind phase. -/
theorem run_tests_escalated (e : XrayTestRunner.Env) (h1 : e.execExists = true)
    (h2 : XrayTestRunner.leaksDetected e = true) :
    XrayTestRunner.run_tests e = XrayTestRunner.runTestsWithValgrind e := by
  simp [XrayTestRunner.run_tests, h1, h2]

/-- With valgrind absent the valgrind phase writes the two fixed
simulated files, copies both to the reports directory, and returns the
results path iff the rerun's results file exists. -/
theorem valgrind_phase_simulated (e : XrayTestRunner.Env)
    (h : e.valgrindAvailable = false) :
    XrayTestRunner.runTestsWithValgrind e =
      (⟨some .simulated, some .simulated, some .simulated, some .simulated⟩,
       if e.vgResultsExists then XrayTestRunner.RunRes.ok e.vgDoc
       else XrayTestRunner.RunRes.noFile) := by
  simp [XrayTestRunner.runTestsWithValgrind, h]

/-- C5 counterexample: escalation triggered (real leak signature) with
valgrind absent, but the bare rerun leaves no results file: `run_tests`
returns `None` and the pipeline aborts without writing any report, so
the claim's unconditional "returns a result document, and the pipeline
still completes" fails. -/
theorem c5_escalation_counterexample :
    XrayTestRunner.leaksDetected c5envNoFile = true ∧
    c5envNoFile.valgrindAvailable = false ∧
    (XrayTestRunner.run_tests c5envNoFile).2 = XrayTestRunner.RunRes.noFile ∧
    XrayTestRunner.run c5envNoFile = (1, none) :=
  ⟨rfl, rfl, rfl, rfl⟩

/-- C5 (amended): when escalation is triggered and valgrind is absent,
the escalator always writes the fixed simulated diagnostic document and
plain-text log and copies both to the reports directory; provided the
rerun leaves the result document in place it is returned, and provided
that document also parses (and the build succeeded) the pipeline
completes and writes the execution report. -/
theorem c5_simulated_fallback_amended (e : XrayTestRunner.Env)
    (h1 : e.execExists = true) (h2 : XrayTestRunner.leaksDetected e = true)
    (h3 : e.valgrindAvailable = false) :
    (XrayTestRunner.run_tests e).1 =
        ⟨some .simulated, some .simulated, some .simulated, some .simulated⟩ ∧
    (e.vgResultsExists = true →
      (XrayTestRunner.run_tests e).2 = XrayTestRunner.RunRes.ok e.vgDoc) ∧
    (e.buildOk = true → e.vgResultsExists = true →
      ∀ r, XrayTestRunner.parse_test_results e.vgDoc = some r →
        XrayTestRunner.run e =
          ((if r.failed = 0 then 0 else 1),
           some (XrayTestRunner.generate_xray_report r true))) := by
  have hrt := run_tests_escalated e h1 h2
  have hvg := valgrind_phase_simulated e h3
  refine ⟨by rw [hrt, hvg], fun hres => by rw [hrt, hvg, hres]; rfl, ?_⟩
  intro hb hres r hr
  have := run_eq_of_ok e e.vgDoc r hb (by rw [hrt, hvg, hres]; rfl) hr
  rw [this, h2]

/-- C5 witness: on `c5envOk` (escalated, valgrind-less, rerun results
present and parseable) the pipeline completes with exit 0 and a report. -/
theorem c5_simulated_fallback_witness :
    XrayTestRunner.run c5envOk =
      (0, some (XrayTestRunner.generate_xray_report ⟨0, 0, 0, 0, []⟩ true)) := by
  have h := c5_simulated_fallback_amended c5envOk rfl rfl rfl
  have h2 := h.2.2 rfl rfl ⟨0, 0, 0, 0, []⟩ rfl
  simpa using h2

/-- C6 counterexample: two runs identical except for valgrind
availability — one real, one simulated — produce reports with literally
the same description, which moreover contains no occurrence of
"simulated" (case-insensitively): the simulated case is not noted in,
nor distinguishable from, the real case through the description. -/
theorem c6_description_counterexample :
    c6envSim.valgrindAvailable = false ∧
    c6envReal.valgrindAvailable = true ∧
    (XrayTestRunner.run c6envSim).2.map (fun rep => rep.description) =
      (XrayTestRunner.run c6envReal).2.map (fun rep => rep.description) ∧
    (XrayTestRunner.run c6envSim).2.map (fun rep => rep.description) =
      some "Automated test execution via CI pipeline | Memory Analysis: AddressSanitizer + Valgrind" ∧
    occursIn (strLower "simulated").data
      (strLower "Automated test execution via CI pipeline | Memory Analysis: AddressSanitizer + Valgrind").data
      = false :=
  ⟨rfl, rfl, rfl, rfl, by decide⟩

/-- C6 (amended): the execution report's description depends only on
whether leaks were detected, never on whether the heavyweight analysis
was real or simulated — any two runs with the same leak flag produce
reports with identical descriptions; the simulated case is
distinguishable only through the artifact files (the simulated valgrind
XML is written exactly when valgrind is absent). -/
theorem c6_description_amended :
    (∀ e e' : XrayTestRunner.Env,
      XrayTestRunner.leaksDetected e = XrayTestRunner.leaksDetected e' →
      ∀ rep rep', (XrayTestRunner.run e).2 = some rep →
        (XrayTestRunner.run e').2 = some rep' →
        rep.description = rep'.description) ∧
    (∀ e : XrayTestRunner.Env, e.execExists = true →
      XrayTestRunner.leaksDetected e = true →
      ((XrayTestRunner.run_tests e).1.vgXml = some .simulated ↔
        e.valgrindAvailable = false)) := by
  constructor
  · intro e e' hleak rep rep' h h'
    rw [run_report_description e rep h, run_report_description e' rep' h', hleak]
  · intro e h1 h2
    rw [run_tests_escalated e h1 h2]
    cases hav : e.valgrindAvailable with
    | false => rw [valgrind_phase_simulated e hav]; simp
    | true =>
      unfold XrayTestRunner.runTestsWithValgrind
      rw [hav]
      cases hx : e.realVgXml with
      | true => simp
      | false =>
        simp only [Bool.false_eq_true, if_true, if_false, Option.isSome_none]
        split <;> simp
        split <;> simp

/-- C6 witness: the amended description independence applied to the
concrete pair `c6envSim`/`c6envReal`, and the artifact criterion
applied to `c6envSim`. -/
theorem c6_description_witness :
    (XrayTestRunner.generate_xray_report ⟨1, 1, 0, 0, [⟨none, none, 0, "passed", none⟩]⟩ true).description =
      (XrayTestRunner.generate_xray_report ⟨1, 1, 0, 0, [⟨none, none, 0, "passed", none⟩]⟩ true).description ∧
    ((XrayTestRunner.run_tests c6envSim).1.vgXml = some .simulated ↔
      c6envSim.valgrindAvailable = false) :=
  ⟨c6_description_amended.1 c6envSim c6envReal rfl _ _ rfl rfl,
   c6_description_amended.2 c6envSim rfl rfl⟩

/-- C7 counterexample: a clean run whose result document declares one
errored case (`errors="1"`, an `<error>` child) and zero failures exits
with status 0 and still writes a report — the claim requires a non-zero
exit whenever the errored count is non-zero. -/
theorem c7_exit_counterexample :
    c7doc.map (fun s => s.errors) = [some "1"] ∧
    (XrayTestRunner.run c7env).1 = 0 ∧
    (XrayTestRunner.run c7env).2.isSome = true :=
  ⟨rfl, rfl, rfl⟩

/-- C7 (amended): the runner's exit status is zero iff the parsed
failed count is zero — the errored count plays no part (the runner's
parser does not track one) — and every pipeline-stage abort (build
failure, run failure or crash, parse failure) exits non-zero.  The
report generator's `main` return expression is zero iff both failed and
errors are zero (though the committed script cannot run at all: a
syntax error precedes it). -/
theorem c7_exit_amended :
    (∀ (e : XrayTestRunner.Env) (doc : List XSuite) (r : XrayTestRunner.RResults),
        e.buildOk = true →
        (XrayTestRunner.run_tests e).2 = XrayTestRunner.RunRes.ok doc →
        XrayTestRunner.parse_test_results doc = some r →
        ((XrayTestRunner.run e).1 = 0 ↔ r.failed = 0)) ∧
    (∀ e : XrayTestRunner.Env, e.buildOk = false → (XrayTestRunner.run e).1 = 1) ∧
    (∀ e : XrayTestRunner.Env, e.buildOk = true →
        (XrayTestRunner.run_tests e).2 = XrayTestRunner.RunRes.noFile →
        (XrayTestRunner.run e).1 = 1) ∧
    (∀ e : XrayTestRunner.Env, e.buildOk = true →
        (XrayTestRunner.run_tests e).2 = XrayTestRunner.RunRes.crash →
        (XrayTestRunner.run e).1 = 1) ∧
    (∀ (e : XrayTestRunner.Env) (doc : List XSuite), e.buildOk = true →
        (XrayTestRunner.run_tests e).2 = XrayTestRunner.RunRes.ok doc →
        XrayTestRunner.parse_test_results doc = none →
        (XrayTestRunner.run e).1 = 1) ∧
    (∀ s, XrayReportGenerator.mainReturn s = 0 ↔ s.failed = 0 ∧ s.errors = 0) := by
  refine ⟨?_, ?_, ?_, ?_, ?_, ?_⟩
  · intro e doc r hb hdoc hr
    rw [run_eq_of_ok e doc r hb hdoc hr]
    by_cases hf : r.failed = 0 <;> simp [hf]
  · intro e hb
    simp [XrayTestRunner.run, hb]
  · intro e hb hrt
    simp [XrayTestRunner.run, hb, hrt]
  · intro e hb hrt
    simp [XrayTestRunner.run, hb, hrt]
  · intro e doc hb hrt hp
    simp [XrayTestRunner.run, hb, hrt, hp]
  · intro s
    unfold XrayReportGenerator.mainReturn
    split <;> rename_i hc
    · simp [hc]
    · simp only [hc, iff_false]
      decide

/-- C7 witness: the amended exit rule applied at `c7env` (reaches
reporting with zero failures, exits 0) and at a summary with one failed
and one errored case (`main` would return non-zero). -/
theorem c7_exit_witness :
    ((XrayTestRunner.run c7env).1 = 0 ↔ c7r.failed = 0) ∧
    (XrayReportGenerator.mainReturn ⟨5, 2, 1, 1, 1, 0⟩ = 0 ↔
      ((⟨5, 2, 1, 1, 1, 0⟩ : XrayReportGenerator.GSummary).failed = 0 ∧
       (⟨5, 2, 1, 1, 1, 0⟩ : XrayReportGenerator.GSummary).errors = 0)) :=
  ⟨c7_exit_amended.1 c7env c7doc c7r rfl rfl (by decide),
   c7_exit_amended.2.2.2.2.2 ⟨5, 2, 1, 1, 1, 0⟩⟩

/-- C8 counterexample: under the empty (absent) configuration the
report generator translates the status literal "error" — the status its
parser assigns to errored cases — to "ERROR" via the upper-case
fallback, not to "FAILED" as the claim states. -/
theorem c8_status_counterexample :
    XrayReportGenerator.map_status_to_xray [] "error" = "ERROR" ∧
    ("ERROR" : String) ≠ "FAILED" :=
  ⟨rfl, by decide⟩

/-- C8 (amended): status translation is table-driven with the
upper-cased literal as never-failing fallback; under the empty or
absent configuration every status upper-cases — passed→PASSED,
failed→FAILED, error→ERROR (not FAILED), skipped→SKIPPED — a configured
override wins when present, and the runner's inline translation maps
"passed" to PASSED and every other status to FAILED. -/
theorem c8_status_amended :
    (∀ tbl s v, XrayReportGenerator.pyDictGet tbl s = some v →
        XrayReportGenerator.map_status_to_xray tbl s = v) ∧
    (∀ tbl s, XrayReportGenerator.pyDictGet tbl s = none →
        XrayReportGenerator.map_status_to_xray tbl s = strUpper s) ∧
    (XrayReportGenerator.map_status_to_xray [] "passed" = "PASSED" ∧
     XrayReportGenerator.map_status_to_xray [] "failed" = "FAILED" ∧
     XrayReportGenerator.map_status_to_xray [] "error" = "ERROR" ∧
     XrayReportGenerator.map_status_to_xray [] "skipped" = "SKIPPED") ∧
    (XrayTestRunner.runnerXrayStatus "passed" = "PASSED" ∧
     ∀ s, s ≠ "passed" → XrayTestRunner.runnerXrayStatus s = "FAILED") := by
  refine ⟨?_, ?_, ⟨rfl, rfl, rfl, rfl⟩, rfl, ?_⟩
  · intro tbl s v h
    unfold XrayReportGenerator.map_status_to_xray
    rw [h]
    rfl
  · intro tbl s h
    unfold XrayReportGenerator.map_status_to_xray
    rw [h]
    rfl
  · intro s h
    unfold XrayTestRunner.runnerXrayStatus
    rw [if_neg h]

/-- C8 witness: the amended translation applied at a configured
override, at an unrecognized status, and at the runner's translation of
"error". -/
theorem c8_status_witness :
    XrayReportGenerator.map_status_to_xray [("failed", "CUSTOM")] "failed" = "CUSTOM" ∧
    XrayReportGenerator.map_status_to_xray [] "weird" = strUpper "weird" ∧
    XrayTestRunner.runnerXrayStatus "error" = "FAILED" :=
  ⟨c8_status_amended.1 [("failed", "CUSTOM")] "failed" "CUSTOM" rfl,
   c8_status_amended.2.1 [] "weird" rfl,
   c8_status_amended.2.2.2.2 "error" (by decide)⟩
